import Mathlib

/-!
Verification development for a two-file Bevy demo: a mouse-chasing boids
simulation (`src/main.rs`) and a static circle-mesh renderer (`main2.rs`).
The `f32` scalars of the Rust source are modelled as real numbers; glam's
`Vec2`, `Vec3` and `Quat` operations used by the code are embedded below,
following the glam source of the era the code targets.
-/

namespace Flocking

/-- glam `Vec2` (two `f32` components, modelled as reals). -/
structure Vec2 where
  x : ℝ
  y : ℝ

instance : Add Vec2 := ⟨fun a b => ⟨a.x + b.x, a.y + b.y⟩⟩

instance : Sub Vec2 := ⟨fun a b => ⟨a.x - b.x, a.y - b.y⟩⟩

/-- `Vec2::ZERO`. -/
instance : Zero Vec2 := ⟨⟨0, 0⟩⟩

/-- Componentwise division of a vector by a scalar (glam `Div<f32> for Vec2`),
used by `chase_mouse` as `Vec2::new(w, h) / 2.0`. -/
noncomputable instance : HDiv Vec2 ℝ Vec2 := ⟨fun v s => ⟨v.x / s, v.y / s⟩⟩

/-- Componentwise multiplication of a vector by a scalar (glam `Mul<f32> for Vec2`). -/
def Vec2.mulScalar (v : Vec2) (s : ℝ) : Vec2 := ⟨v.x * s, v.y * s⟩

/-- glam `Vec2::dot`. -/
def Vec2.dot (a b : Vec2) : ℝ := a.x * b.x + a.y * b.y

/-- glam `Vec2::length_squared`. -/
def Vec2.lengthSquared (v : Vec2) : ℝ := v.x * v.x + v.y * v.y

/-- glam `Vec2::length`. -/
noncomputable def Vec2.length (v : Vec2) : ℝ := Real.sqrt v.lengthSquared

/-- glam `Vec2::perp_dot`. -/
def Vec2.perpDot (a b : Vec2) : ℝ := a.x * b.y - a.y * b.x

/-- glam `Vec2::clamp_length_max`: if the squared length exceeds `max * max`,
rescale the vector to length `max`, otherwise return it unchanged. -/
noncomputable def Vec2.clampLengthMax (v : Vec2) (max : ℝ) : Vec2 :=
  if v.lengthSquared > max * max then v.mulScalar (max / Real.sqrt v.lengthSquared) else v

/-- glam `Vec2::angle_between`: the signed angle from `a` to `b`, computed as
`acos(dot / sqrt(lengthSq a * lengthSq b))` with the sign taken from `perp_dot`. -/
noncomputable def Vec2.angleBetween (a b : Vec2) : ℝ :=
  if a.perpDot b < 0 then
    -Real.arccos (a.dot b / Real.sqrt (a.lengthSquared * b.lengthSquared))
  else
    Real.arccos (a.dot b / Real.sqrt (a.lengthSquared * b.lengthSquared))

/-- glam `Vec3`. -/
structure Vec3 where
  x : ℝ
  y : ℝ
  z : ℝ

instance : Add Vec3 := ⟨fun a b => ⟨a.x + b.x, a.y + b.y, a.z + b.z⟩⟩

/-- glam `Vec2::extend`. -/
def Vec2.extend (v : Vec2) (z : ℝ) : Vec3 := ⟨v.x, v.y, z⟩

/-- glam `Vec3::truncate`. -/
def Vec3.truncate (v : Vec3) : Vec2 := ⟨v.x, v.y⟩

/-- glam `Quat` (x, y, z, w). -/
structure Quat where
  x : ℝ
  y : ℝ
  z : ℝ
  w : ℝ

/-- glam `Quat::from_rotation_z`: quaternion `(0, 0, sin (θ/2), cos (θ/2))`. -/
noncomputable def Quat.fromRotationZ (angle : ℝ) : Quat :=
  ⟨0, 0, Real.sin (angle / 2), Real.cos (angle / 2)⟩

/-- The identity quaternion, default rotation of a `Transform`. -/
def Quat.IDENTITY : Quat := ⟨0, 0, 0, 1⟩

/- ## Basic lemmas about the vector model -/

theorem Vec2.add2_def (a b : Vec2) : a + b = ⟨a.x + b.x, a.y + b.y⟩ := rfl

theorem Vec2.sub_def (a b : Vec2) : a - b = ⟨a.x - b.x, a.y - b.y⟩ := rfl

theorem Vec2.zero_def : (0 : Vec2) = ⟨0, 0⟩ := rfl

theorem Vec2.add_zero (v : Vec2) : v + 0 = v := by
  cases v; simp [Vec2.add2_def, Vec2.zero_def]

theorem Vec2.sub_zero (v : Vec2) : v - 0 = v := by
  cases v; simp [Vec2.sub_def, Vec2.zero_def]

theorem Vec2.lengthSquared_nonneg (v : Vec2) : 0 ≤ v.lengthSquared :=
  add_nonneg (mul_self_nonneg _) (mul_self_nonneg _)

theorem Vec2.length_nonneg (v : Vec2) : 0 ≤ v.length := Real.sqrt_nonneg _

theorem Vec2.length_mul_self (v : Vec2) : v.length * v.length = v.lengthSquared :=
  Real.mul_self_sqrt v.lengthSquared_nonneg

theorem Vec2.length_eq_zero_iff (v : Vec2) : v.length = 0 ↔ v = 0 := by
  cases v with
  | mk x y =>
    rw [Vec2.length, Real.sqrt_eq_zero (Vec2.lengthSquared_nonneg _), Vec2.lengthSquared]
    constructor
    · intro h
      have hxx : x * x = 0 := by nlinarith [mul_self_nonneg x, mul_self_nonneg y]
      have hyy : y * y = 0 := by nlinarith [mul_self_nonneg x, mul_self_nonneg y]
      simp [Vec2.zero_def, mul_self_eq_zero.mp hxx, mul_self_eq_zero.mp hyy]
    · intro h
      rw [Vec2.zero_def] at h
      injection h with hx hy
      rw [hx, hy]
      ring

theorem Vec2.length_mulScalar (v : Vec2) (s : ℝ) :
    (v.mulScalar s).length = |s| * v.length := by
  cases v with
  | mk x y =>
    rw [Vec2.length, Vec2.length, Vec2.mulScalar]
    have : Vec2.lengthSquared ⟨x * s, y * s⟩ = s * s * Vec2.lengthSquared ⟨x, y⟩ := by
      simp [Vec2.lengthSquared]; ring
    rw [this, Real.sqrt_mul (mul_self_nonneg s), Real.sqrt_mul_self_eq_abs]

/-- Core clamping bound: for a nonnegative bound `m`, the clamped vector has
length at most `m`. -/
theorem Vec2.length_clampLengthMax_le (v : Vec2) (m : ℝ) (hm : 0 ≤ m) :
    (v.clampLengthMax m).length ≤ m := by
  rw [Vec2.clampLengthMax]
  split
  · next h =>
    have hsq : 0 < v.lengthSquared := lt_of_le_of_lt (mul_self_nonneg m) h
    have hlen : 0 < v.length := Real.sqrt_pos.mpr hsq
    rw [Vec2.length_mulScalar, abs_of_nonneg (div_nonneg hm (Real.sqrt_nonneg _))]
    rw [Vec2.length]
    rw [div_mul_cancel₀ m (ne_of_gt (Real.sqrt_pos.mpr hsq))]
  · next h =>
    push_neg at h
    have : v.length ≤ Real.sqrt (m * m) := Real.sqrt_le_sqrt h
    rwa [Real.sqrt_mul_self hm] at this

/-- Clamping a vector already within the bound returns it unchanged. -/
theorem Vec2.clampLengthMax_of_length_le (v : Vec2) (m : ℝ) (h : v.length ≤ m) :
    v.clampLengthMax m = v := by
  rw [Vec2.clampLengthMax, if_neg]
  push_neg
  calc v.lengthSquared = v.length * v.length := (Vec2.length_mul_self v).symm
    _ ≤ m * m := mul_le_mul h h v.length_nonneg (le_trans v.length_nonneg h)

/- ## Components and world state (src/main.rs) -/

/-- Bevy `Transform`, restricted to the fields the demo reads and writes:
`translation` (a `Vec3`) and `rotation` (a `Quat`). -/
structure Transform where
  translation : Vec3
  rotation : Quat

/-- `Transform::from_xyz(x, y, z)`: translation `(x, y, z)`, identity rotation. -/
def Transform.fromXyz (x y z : ℝ) : Transform :=
  ⟨⟨x, y, z⟩, Quat.IDENTITY⟩

/-- The `Velocity` component: a 2D vector and a scalar max speed. -/
structure Velocity where
  vector : Vec2
  max : ℝ

/-- The `Force` component: a 2D vector and a scalar max magnitude. -/
structure Force where
  vector : Vec2
  max : ℝ

/-- One boid entity: the three components attached to each spawned agent. -/
structure Agent where
  transform : Transform
  velocity : Velocity
  force : Force

/-- The primary window as the systems read it: reported size and the optional
cursor position (in window coordinates). -/
structure Window where
  width : ℝ
  height : ℝ
  cursorPosition : Option Vec2

/- ## The three per-frame systems (src/main.rs) -/

/-- Body of the `apply_force` loop for one agent:
`velocity.vector = clamp_length_max(velocity.vector + force.vector, velocity.max)`
followed by `force.vector = Vec2::ZERO`. -/
noncomputable def applyForce1 (velocity : Velocity) (force : Force) : Velocity × Force :=
  (⟨Vec2.clampLengthMax (velocity.vector + force.vector) velocity.max, velocity.max⟩,
   ⟨0, force.max⟩)

/-- `apply_force`: the loop body applied to every agent of the query. -/
noncomputable def applyForce (agents : List Agent) : List Agent :=
  agents.map fun a =>
    { a with
      velocity := (applyForce1 a.velocity a.force).1
      force := (applyForce1 a.velocity a.force).2 }

/-- Body of the `update_boids` loop for one agent: the translation is advanced
by `velocity.vector.extend(0.0)`, and the rotation is rewritten to
`Quat::from_rotation_z(Vec2::new(1.0, 0.0).angle_between(velocity.vector))`
only when `velocity.vector.length().classify() != FpCategory::Zero`
(over the reals: only when the length is not exactly zero). -/
noncomputable def updateBoids1 (transform : Transform) (velocity : Velocity) : Transform :=
  { translation := transform.translation + velocity.vector.extend 0
    rotation :=
      if velocity.vector.length ≠ 0 then
        Quat.fromRotationZ ((Vec2.mk 1 0).angleBetween velocity.vector)
      else
        transform.rotation }

/-- `update_boids`: the loop body applied to every agent of the query. -/
noncomputable def updateBoids (agents : List Agent) : List Agent :=
  agents.map fun a => { a with transform := updateBoids1 a.transform a.velocity }

/-- Body of the `chase_mouse` loop for one agent, given the already-centred
cursor position: `desired_velocity = real_cursor_position - translation.truncate()`,
`force.vector = clamp_length_max(desired_velocity - velocity.vector, force.max)`. -/
noncomputable def chaseMouse1 (realCursorPosition : Vec2) (force : Force)
    (velocity : Velocity) (transform : Transform) : Force :=
  ⟨Vec2.clampLengthMax
      ((realCursorPosition - transform.translation.truncate) - velocity.vector) force.max,
   force.max⟩

/-- `chase_mouse`: if the primary window and its cursor position are available,
centre the cursor (`cursor - Vec2::new(width, height) / 2.0`) and run the loop
body on every agent; otherwise do nothing. -/
noncomputable def chaseMouse (primaryWindow : Option Window) (agents : List Agent) :
    List Agent :=
  match primaryWindow with
  | none => agents
  | some window =>
    match window.cursorPosition with
    | none => agents
    | some cursor =>
      let realCursorPosition := cursor - Vec2.mk window.width window.height / (2 : ℝ)
      agents.map fun a =>
        { a with force := chaseMouse1 realCursorPosition a.force a.velocity a.transform }

/- ## Startup (src/main.rs `start`) -/

/-- Result of the `start` system: the spawned boid entities and the number of
camera entities spawned. -/
structure SpawnResult where
  agents : List Agent
  cameras : ℕ

/-- The `start` system. The two `thread_rng` streams are parameters: `randX i`
and `randY i` stand for the `gen_range` draws of iteration `i`. When the
primary window exists, 100 agents are spawned at `(randX i, randY i, 0)` with
velocity `(0,0)` (max `1.0`) and force `(0,0)` (max `0.25`); otherwise no agent
is spawned. One 2D orthographic camera is always spawned. -/
noncomputable def start (primaryWindow : Option Window) (randX randY : ℕ → ℝ) :
    SpawnResult :=
  { agents :=
      match primaryWindow with
      | none => []
      | some _ =>
        (List.range 100).map fun i =>
          { transform := Transform.fromXyz (randX i) (randY i) 0
            velocity := ⟨⟨0, 0⟩, 1⟩
            force := ⟨⟨0, 0⟩, 0.25⟩ }
    cameras := 1 }

/- ## Circle mesh (main2.rs) -/

/-- `CIRCLE_VERTICES` from main2.rs. -/
def CIRCLE_VERTICES : ℕ := 50

/-- Bevy `Color::nonlinear_to_linear_srgb` on one channel. -/
noncomputable def srgbChannelToLinear (value : ℝ) : ℝ :=
  if value ≤ 0.04045 then value / 12.92 else ((value + 0.055) / 1.055) ^ (2.4 : ℝ)

/-- `Vec4::from(Color::rgb_u8(255, 127, 80).as_rgba_linear()).truncate().to_array()`:
the coral colour converted from sRGB bytes to linear RGB. -/
noncomputable def coralLinear : Vec3 :=
  ⟨srgbChannelToLinear (255 / 255), srgbChannelToLinear (127 / 255),
   srgbChannelToLinear (80 / 255)⟩

/-- A mesh as main2.rs builds it: a position attribute, a colour attribute and
a `U32` index list (triangle-list topology). -/
structure Mesh where
  positions : List Vec3
  colors : List Vec3
  indices : List ℕ

/-- The index list of `create_circle_mesh`:
`once([0, CIRCLE_VERTICES, 1]).chain((2..=CIRCLE_VERTICES).map(|i| [0, i - 1, i])).flatten()`. -/
def circleIndices : List ℕ :=
  ([0, CIRCLE_VERTICES, 1] ::
    (List.range' 2 (CIRCLE_VERTICES - 1)).map fun i => [0, i - 1, i]).flatten

/-- `create_circle_mesh`: a centre vertex at the origin followed by
`CIRCLE_VERTICES` rim vertices at angles `i * TAU / CIRCLE_VERTICES` on the
unit circle, every vertex coloured `coralLinear`, with the fan index list. -/
noncomputable def createCircleMesh : Mesh :=
  let pairs : List (Vec3 × Vec3) :=
    (⟨0, 0, 0⟩, coralLinear) ::
      (List.range CIRCLE_VERTICES).map fun i : ℕ =>
        (⟨Real.cos ((i : ℝ) * (2 * Real.pi) / (CIRCLE_VERTICES : ℝ)),
          Real.sin ((i : ℝ) * (2 * Real.pi) / (CIRCLE_VERTICES : ℝ)), 0⟩, coralLinear)
  { positions := pairs.unzip.1
    colors := pairs.unzip.2
    indices := circleIndices }

theorem Vec3.add3_def (a b : Vec3) : a + b = ⟨a.x + b.x, a.y + b.y, a.z + b.z⟩ := rfl

/-- `apply_force` on an agent whose force is zero keeps an in-bounds velocity
unchanged. -/
theorem applyForce1_zero_force (velocity : Velocity) (fmax : ℝ)
    (h : velocity.vector.length ≤ velocity.max) :
    (applyForce1 velocity ⟨0, fmax⟩).1 = velocity := by
  cases velocity with
  | mk vec m =>
    simp only [applyForce1]
    rw [Vec2.add_zero, Vec2.clampLengthMax_of_length_le _ _ h]

theorem createCircleMesh_indices : createCircleMesh.indices = circleIndices := rfl

theorem createCircleMesh_positions :
    createCircleMesh.positions =
      Vec3.mk 0 0 0 ::
        (List.range CIRCLE_VERTICES).map fun i : ℕ =>
          Vec3.mk (Real.cos ((i : ℝ) * (2 * Real.pi) / (CIRCLE_VERTICES : ℝ)))
            (Real.sin ((i : ℝ) * (2 * Real.pi) / (CIRCLE_VERTICES : ℝ))) 0 := by
  show (List.unzip _).1 = _
  rw [List.unzip_eq_map]
  simp [List.map_map, Function.comp]

/-- A concrete agent, as `start` spawns them, used to instantiate theorems. -/
noncomputable def sampleAgent : Agent :=
  ⟨Transform.fromXyz 7 8 0, ⟨⟨0, 0⟩, 1⟩, ⟨⟨0, 0⟩, 0.25⟩⟩

/- ## Claims -/

/-- Claim C1: after `apply_force` runs, the agent's velocity magnitude is at
most its configured max, and after `chase_mouse` writes a force, the force's
magnitude is at most its configured max (the configured maxima are
nonnegative). -/
theorem C1_velocity_and_force_clamped (velocity : Velocity) (force : Force)
    (realCursorPosition : Vec2) (transform : Transform)
    (hv : 0 ≤ velocity.max) (hf : 0 ≤ force.max) :
    (applyForce1 velocity force).1.vector.length ≤ velocity.max ∧
    (chaseMouse1 realCursorPosition force velocity transform).vector.length ≤ force.max :=
  ⟨Vec2.length_clampLengthMax_le _ _ hv, Vec2.length_clampLengthMax_le _ _ hf⟩

/-- Witness for C1 at the configured constants (max speed 1, max force 0.25). -/
theorem C1_witness :
    (0 : ℝ) ≤ 1 ∧ (0 : ℝ) ≤ 0.25 ∧
    ((applyForce1 ⟨⟨0, 0⟩, 1⟩ ⟨⟨10, 0⟩, 0.25⟩).1.vector.length ≤ 1 ∧
      (chaseMouse1 ⟨3, 4⟩ ⟨⟨10, 0⟩, 0.25⟩ ⟨⟨0, 0⟩, 1⟩
          (Transform.fromXyz 0 0 0)).vector.length ≤ 0.25) :=
  ⟨by norm_num, by norm_num,
    C1_velocity_and_force_clamped ⟨⟨0, 0⟩, 1⟩ ⟨⟨10, 0⟩, 0.25⟩ ⟨3, 4⟩
      (Transform.fromXyz 0 0 0) (by norm_num) (by norm_num)⟩

/-- Claim C2: `update_boids` rewrites the rotation exactly when the velocity's
length is nonzero — the classification is exact zero, not a small-epsilon
threshold — so a zero-velocity agent keeps its previous rotation, and any
agent with nonzero velocity (however small) gets the rotation rewritten. -/
theorem C2_rotation_only_when_moving (transform : Transform) (velocity : Velocity) :
    (velocity.vector = 0 → (updateBoids1 transform velocity).rotation = transform.rotation) ∧
    (velocity.vector ≠ 0 →
      (updateBoids1 transform velocity).rotation =
        Quat.fromRotationZ ((Vec2.mk 1 0).angleBetween velocity.vector)) := by
  constructor
  · intro h
    simp only [updateBoids1]
    rw [if_neg (not_not.mpr ((Vec2.length_eq_zero_iff _).mpr h))]
  · intro h
    simp only [updateBoids1]
    rw [if_pos (fun hl => h ((Vec2.length_eq_zero_iff _).mp hl))]

/-- Witness for C2: an exactly stationary agent keeps its rotation. -/
theorem C2_witness :
    (updateBoids1 (Transform.fromXyz 5 6 0) ⟨⟨0, 0⟩, 1⟩).rotation =
      (Transform.fromXyz 5 6 0).rotation :=
  (C2_rotation_only_when_moving (Transform.fromXyz 5 6 0) ⟨⟨0, 0⟩, 1⟩).1 rfl

/-- Claim C4: `apply_force` zeroes the force after consuming it; re-running it
with no new force leaves the velocity unchanged; clamping an in-bounds
velocity plus the zero force returns it unchanged; and on velocity `(0,0)`,
force `(10,0)`, `velocity.max = 1` the result is velocity `(1,0)`, force
`(0,0)`. -/
theorem C4_force_consumed_once (velocity : Velocity) (force : Force)
    (hv : 0 ≤ velocity.max) :
    (applyForce1 velocity force).2.vector = 0 ∧
    (applyForce1 (applyForce1 velocity force).1 (applyForce1 velocity force).2).1 =
      (applyForce1 velocity force).1 ∧
    (velocity.vector.length ≤ velocity.max →
      (applyForce1 velocity ⟨0, force.max⟩).1 = velocity) ∧
    applyForce1 ⟨⟨0, 0⟩, 1⟩ ⟨⟨10, 0⟩, force.max⟩ = (⟨⟨1, 0⟩, 1⟩, ⟨0, force.max⟩) := by
  refine ⟨rfl, ?_, ?_, ?_⟩
  · exact applyForce1_zero_force _ _ (Vec2.length_clampLengthMax_le _ _ hv)
  · intro h
    exact applyForce1_zero_force _ _ h
  · have hsqrt : Real.sqrt 100 = 10 := by
      rw [show (100 : ℝ) = 10 ^ 2 by norm_num, Real.sqrt_sq (by norm_num : (0 : ℝ) ≤ 10)]
    have hgt : Vec2.lengthSquared ⟨10, 0⟩ > 1 * 1 := by norm_num [Vec2.lengthSquared]
    have hls : Vec2.lengthSquared ⟨10, 0⟩ = 100 := by norm_num [Vec2.lengthSquared]
    have hclamp : Vec2.clampLengthMax ⟨10, 0⟩ 1 = ⟨1, 0⟩ := by
      rw [Vec2.clampLengthMax, if_pos hgt, hls, hsqrt, Vec2.mulScalar]
      simp only [Vec2.mk.injEq]
      norm_num
    have hadd : (⟨0, 0⟩ : Vec2) + ⟨10, 0⟩ = ⟨10, 0⟩ := by
      simp [Vec2.add2_def]
    simp only [applyForce1, hadd, hclamp]

/-- Witness for C4: the force is consumed and the velocity clamped at the
concrete example of the spec. -/
theorem C4_witness :
    applyForce1 ⟨⟨0, 0⟩, 1⟩ ⟨⟨10, 0⟩, 0.25⟩ = (⟨⟨1, 0⟩, 1⟩, ⟨0, 0.25⟩) :=
  (C4_force_consumed_once ⟨⟨0, 0⟩, 1⟩ ⟨⟨10, 0⟩, 0.25⟩ (by norm_num)).2.2.2

/-- Claim C5: when there is no primary window, or the window reports no cursor
position, `chase_mouse` leaves every agent (in particular every force)
unchanged; the failed lookup is silently skipped. -/
theorem C5_no_cursor_noop (agents : List Agent) (window : Window)
    (h : window.cursorPosition = none) :
    chaseMouse none agents = agents ∧ chaseMouse (some window) agents = agents := by
  refine ⟨rfl, ?_⟩
  cases window with
  | mk w ht c =>
    have hc : c = none := h
    subst hc
    rfl

/-- Witness for C5 at a concrete window without cursor and one agent. -/
theorem C5_witness :
    chaseMouse none [sampleAgent] = [sampleAgent] ∧
    chaseMouse (some ⟨800, 600, none⟩) [sampleAgent] = [sampleAgent] :=
  C5_no_cursor_noop [sampleAgent] ⟨800, 600, none⟩ rfl

/-- Claim C10: with no primary window at startup, `start` spawns no agent and
still spawns the camera. -/
theorem C10_no_window_no_agents (randX randY : ℕ → ℝ) :
    (start none randX randY).agents = [] ∧ (start none randX randY).cameras = 1 :=
  ⟨rfl, rfl⟩

/-- Claim C3: with a cursor available, `chase_mouse` writes into each agent's
force `clamp_length_max(((cursor - (w, h) / 2) - position) - velocity, force.max)`,
and for zero current velocity this is `clamp_length_max(P - Q, force.max)` with
`P` the world-space cursor position and `Q` the agent position. -/
theorem C3_chase_force_formula (window : Window) (cursor : Vec2) (agents : List Agent)
    (h : window.cursorPosition = some cursor) :
    chaseMouse (some window) agents =
      agents.map (fun a =>
        { a with force :=
            ⟨Vec2.clampLengthMax
                (((cursor - Vec2.mk window.width window.height / (2 : ℝ)) -
                    a.transform.translation.truncate) - a.velocity.vector) a.force.max,
              a.force.max⟩ }) ∧
    (∀ f : Force, ∀ t : Transform, ∀ v : Velocity, v.vector = 0 →
      chaseMouse1 (cursor - Vec2.mk window.width window.height / (2 : ℝ)) f v t =
        ⟨Vec2.clampLengthMax
            ((cursor - Vec2.mk window.width window.height / (2 : ℝ)) -
              t.translation.truncate) f.max,
          f.max⟩) := by
  constructor
  · cases window with
    | mk w ht c =>
      have hc : c = some cursor := h
      subst hc
      rfl
  · intro f t v hv
    simp only [chaseMouse1, hv, Vec2.sub_zero]

/-- Witness for C3: the zero-velocity case at a concrete window and cursor. -/
theorem C3_witness :
    chaseMouse1 (Vec2.mk 3 4 - Vec2.mk 800 600 / (2 : ℝ)) ⟨⟨0, 0⟩, 0.25⟩ ⟨⟨0, 0⟩, 1⟩
        (Transform.fromXyz 7 8 0) =
      ⟨Vec2.clampLengthMax
          ((Vec2.mk 3 4 - Vec2.mk 800 600 / (2 : ℝ)) -
            (Transform.fromXyz 7 8 0).translation.truncate) 0.25,
        0.25⟩ :=
  (C3_chase_force_formula ⟨800, 600, some ⟨3, 4⟩⟩ ⟨3, 4⟩ [] rfl).2
    ⟨⟨0, 0⟩, 0.25⟩ (Transform.fromXyz 7 8 0) ⟨⟨0, 0⟩, 1⟩ rfl

/-- Claim C6: `update_boids` performs the Euler step
`new_translation = translation + velocity.extend 0`; the signed angle between
the forward axis `(1,0)` and itself is `0`; and from position `(0,0)` with
velocity `(1,0)` one step gives position `(1,0,0)` and rotation
`from_rotation_z 0`. -/
theorem C6_euler_step (transform : Transform) (velocity : Velocity) :
    (updateBoids1 transform velocity).translation =
      transform.translation + velocity.vector.extend 0 ∧
    (Vec2.mk 1 0).angleBetween (Vec2.mk 1 0) = 0 ∧
    updateBoids1 (Transform.fromXyz 0 0 0) ⟨⟨1, 0⟩, 1⟩ =
      ⟨⟨1, 0, 0⟩, Quat.fromRotationZ 0⟩ := by
  have hangle : (Vec2.mk 1 0).angleBetween (Vec2.mk 1 0) = 0 := by
    rw [Vec2.angleBetween, if_neg (by norm_num [Vec2.perpDot])]
    have h1 : Vec2.lengthSquared ⟨1, 0⟩ = 1 := by norm_num [Vec2.lengthSquared]
    have h2 : Vec2.dot (⟨1, 0⟩ : Vec2) ⟨1, 0⟩ = 1 := by norm_num [Vec2.dot]
    rw [h1, h2]
    norm_num [Real.sqrt_one, Real.arccos_one]
  have hlen : Vec2.length ⟨1, 0⟩ = 1 := by
    rw [Vec2.length]
    norm_num [Vec2.lengthSquared, Real.sqrt_one]
  refine ⟨rfl, hangle, ?_⟩
  simp only [updateBoids1, Vec2.extend, Transform.fromXyz]
  rw [if_pos (show Vec2.length ⟨1, 0⟩ ≠ 0 by rw [hlen]; norm_num), hangle]
  simp [Vec3.add3_def]

/-- Claim C7: with a primary window available and the `gen_range` draws in
their half-open ranges, `start` spawns exactly 100 agents, each positioned
within `[-width/2, width/2] × [-height/2, height/2]`, with velocity `(0,0)`
(max speed `1.0`) and force `(0,0)` (max magnitude `0.25`). -/
theorem C7_spawn (window : Window) (randX randY : ℕ → ℝ)
    (hx : ∀ i, randX i ∈ Set.Ico (-window.width / 2) (window.width / 2))
    (hy : ∀ i, randY i ∈ Set.Ico (-window.height / 2) (window.height / 2)) :
    (start (some window) randX randY).agents.length = 100 ∧
    ∀ a ∈ (start (some window) randX randY).agents,
      (-window.width / 2 ≤ a.transform.translation.x ∧
        a.transform.translation.x ≤ window.width / 2) ∧
      (-window.height / 2 ≤ a.transform.translation.y ∧
        a.transform.translation.y ≤ window.height / 2) ∧
      a.velocity = ⟨⟨0, 0⟩, 1⟩ ∧ a.force = ⟨⟨0, 0⟩, 0.25⟩ := by
  constructor
  · simp [start]
  · intro a ha
    simp only [start, List.mem_map, List.mem_range] at ha
    obtain ⟨i, -, rfl⟩ := ha
    obtain ⟨hx1, hx2⟩ := hx i
    obtain ⟨hy1, hy2⟩ := hy i
    exact ⟨⟨hx1, le_of_lt hx2⟩, ⟨hy1, le_of_lt hy2⟩, rfl, rfl⟩

/-- Witness for C7 at a 800 × 600 window with all draws equal to 0. -/
theorem C7_witness :
    (start (some ⟨800, 600, none⟩) (fun _ => 0) (fun _ => 0)).agents.length = 100 ∧
    ∀ a ∈ (start (some ⟨800, 600, none⟩) (fun _ => 0) (fun _ => 0)).agents,
      (-(Window.mk 800 600 none).width / 2 ≤ a.transform.translation.x ∧
        a.transform.translation.x ≤ (Window.mk 800 600 none).width / 2) ∧
      (-(Window.mk 800 600 none).height / 2 ≤ a.transform.translation.y ∧
        a.transform.translation.y ≤ (Window.mk 800 600 none).height / 2) ∧
      a.velocity = ⟨⟨0, 0⟩, 1⟩ ∧ a.force = ⟨⟨0, 0⟩, 0.25⟩ :=
  C7_spawn ⟨800, 600, none⟩ (fun _ => 0) (fun _ => 0)
    (fun _ => by simp [Set.mem_Ico]; norm_num)
    (fun _ => by simp [Set.mem_Ico]; norm_num)

set_option maxRecDepth 10000 in
/-- Claim C9: `create_circle_mesh` has `1 + CIRCLE_VERTICES` vertices — the
centre at the origin followed by rim vertices at angles
`i * TAU / CIRCLE_VERTICES` on the unit circle — and its index list is a
closed fan of `CIRCLE_VERTICES` triangles, each starting at the centre index
`0`, with every index at most `CIRCLE_VERTICES`. -/
theorem C9_circle_mesh :
    createCircleMesh.positions.length = 1 + CIRCLE_VERTICES ∧
    createCircleMesh.positions[0]? = some ⟨0, 0, 0⟩ ∧
    (∀ i : ℕ, i < CIRCLE_VERTICES →
      createCircleMesh.positions[i + 1]? =
        some ⟨Real.cos ((i : ℝ) * (2 * Real.pi) / (CIRCLE_VERTICES : ℝ)),
              Real.sin ((i : ℝ) * (2 * Real.pi) / (CIRCLE_VERTICES : ℝ)), 0⟩) ∧
    createCircleMesh.indices.length = 3 * CIRCLE_VERTICES ∧
    (∀ j, j < CIRCLE_VERTICES → createCircleMesh.indices[3 * j]? = some 0) ∧
    (∀ k ∈ createCircleMesh.indices, k ≤ CIRCLE_VERTICES) := by
  simp only [createCircleMesh_positions, createCircleMesh_indices]
  refine ⟨?_, rfl, ?_, ?_, ?_, ?_⟩
  · rw [List.length_cons, List.length_map, List.length_range, Nat.add_comm]
  · intro i hi
    rw [List.getElem?_cons_succ, List.getElem?_map, List.getElem?_range hi]
    rfl
  · decide
  · decide
  · decide

/-- Witness for C9: the first rim vertex and the first fan index. -/
theorem C9_witness :
    createCircleMesh.positions[1]? =
      some ⟨Real.cos ((0 : ℕ) * (2 * Real.pi) / (CIRCLE_VERTICES : ℝ)),
            Real.sin ((0 : ℕ) * (2 * Real.pi) / (CIRCLE_VERTICES : ℝ)), 0⟩ ∧
    createCircleMesh.indices[0]? = some 0 :=
  ⟨C9_circle_mesh.2.2.1 0 (by decide), C9_circle_mesh.2.2.2.2.1 0 (by decide)⟩

end Flocking
